import Mathlib

/-!
# Telemetry adapter (`src/telemetry.c`)

A shallow embedding of the ICM20948 telemetry glue code: the three callbacks
`usr_write`, `usr_read`, `usr_delay_us` handed to the sensor driver, and the
two entry points `telemetry_init` and `telemetry_getData`.

The SPI primitives, the busy-wait primitive `_delay_us` and the sensor driver
are external to the file.  They are taken as parameters (`Env`): arbitrary
functions on an arbitrary outside-world state `σ`.  Every call the embedded
code makes to one of them is appended, with its arguments, to `State.trace`.
-/

namespace Telemetry

/-! ## Machine integers -/

/-- Conversion of an integer to `int8_t`: two's-complement wrap into -128..127. -/
def toInt8 (x : Int) : Int := (x + 128) % 256 - 128

/-- The integer is representable in `int8_t`. -/
def isInt8 (x : Int) : Prop := -128 ≤ x ∧ x ≤ 127

instance (x : Int) : Decidable (isInt8 x) := by
  unfold isInt8
  infer_instance

/-! ## Declarations of `icm20948_api.h` used by the file -/

/-- Modelled from the spec: the value of `ICM20948_RET_OK`, declared in
`icm20948_api.h` (not among the sources).  The spec's glossary fixes it:
"zero means success". -/
def ICM20948_RET_OK : Int := 0

/-- Modelled from the spec: the constant `ICM20948_GYRO_ENABLE` of
`icm20948_api.h` (not among the sources); the spec describes the option as a
boolean "set true". -/
def ICM20948_GYRO_ENABLE : Bool := true

/-- Modelled from the spec: the constant `ICM20948_ACCEL_ENABLE` of
`icm20948_api.h` (not among the sources); the spec describes the option as a
boolean "set true". -/
def ICM20948_ACCEL_ENABLE : Bool := true

/-- Modelled from the spec: the driver type `icm20948_settings_t` of
`icm20948_api.h` (not among the sources), "a settings structure with exactly
two recognized options"; the field names are those assigned in
`telemetry_init`. -/
structure icm20948_settings_t where
  gyro_en : Bool
  accel_en : Bool
  deriving DecidableEq, Repr

/-- Modelled from the spec: the driver type `icm20948_gyro_t` of
`icm20948_api.h` (not among the sources), "the latest 3-axis angular-rate
reading", only stored by this file. -/
structure icm20948_gyro_t where
  x : Int
  y : Int
  z : Int
  deriving DecidableEq, Repr

/-- Modelled from the spec: the driver type `icm20948_accel_t` of
`icm20948_api.h` (not among the sources), "the latest 3-axis acceleration
reading", only stored by this file. -/
structure icm20948_accel_t where
  x : Int
  y : Int
  z : Int
  deriving DecidableEq, Repr

/-! ## External calls and the adapter state -/

/-- The three static functions of the file, as function-pointer values. -/
inductive Callback where
  | usr_write
  | usr_read
  | usr_delay_us
  deriving DecidableEq, Repr

/-- One call made by the file to an external function, with the arguments
passed.  A byte buffer argument is recorded by the bytes it points to (for
`spi_read`: the bytes before the call). -/
inductive Call where
  | spi_assertCS (port pin level : Nat)
  | spi_write (buf : List Nat) (len : Nat)
  | spi_read (buf : List Nat) (len : Nat)
  | _delay_us (us : Nat)
  | icm20948_init (a1 a2 a3 : Callback)
  | icm20948_applySettings (settings : icm20948_settings_t)
  | icm20948_getGyroData
  | icm20948_getAccelData
  deriving DecidableEq, Repr

/-- Everything the file takes from its headers and collaborators: the
chip-select port and pin of `pins.h`, the value of `ICM20948_RET_NULL_PTR`,
and the behaviour of each external function on the outside-world state `σ`.
A fetch receives the current content of the buffer it is pointed at and
returns its status, the content it leaves in that buffer, and the new
outside-world state. -/
structure Env (σ : Type) where
  SPI_ICM20948_CS_PORT : Nat
  SPI_ICM20948_CS_PIN : Nat
  ICM20948_RET_NULL_PTR : Int
  spi_assertCS : Nat → Nat → Nat → σ → σ
  spi_write : List Nat → Nat → σ → σ
  spi_read : List Nat → Nat → σ → List Nat × σ
  _delay_us : Nat → σ → σ
  icm20948_init : Callback → Callback → Callback → σ → Int × σ
  icm20948_applySettings : icm20948_settings_t → σ → Int × σ
  icm20948_getGyroData : icm20948_gyro_t → σ → Int × icm20948_gyro_t × σ
  icm20948_getAccelData : icm20948_accel_t → σ → Int × icm20948_accel_t × σ

/-- The two globals of the file, the outside world, and the calls made so far
(oldest first). -/
structure State (σ : Type) where
  world : σ
  gyro_data : icm20948_gyro_t
  accel_data : icm20948_accel_t
  trace : List Call

variable {σ : Type}

/-- Call of `spi_assertCS(&port, pin, level)`. -/
def call_spi_assertCS (E : Env σ) (port pin level : Nat) (s : State σ) : State σ :=
  { s with world := E.spi_assertCS port pin level s.world,
           trace := s.trace ++ [Call.spi_assertCS port pin level] }

/-- Call of `spi_write(buf, len)`; whatever it returns is discarded. -/
def call_spi_write (E : Env σ) (buf : List Nat) (len : Nat) (s : State σ) : State σ :=
  { s with world := E.spi_write buf len s.world,
           trace := s.trace ++ [Call.spi_write buf len] }

/-- Call of `spi_read(buf, len)`: gives the new content of the buffer. -/
def call_spi_read (E : Env σ) (buf : List Nat) (len : Nat) (s : State σ) :
    List Nat × State σ :=
  ((E.spi_read buf len s.world).1,
   { s with world := (E.spi_read buf len s.world).2,
            trace := s.trace ++ [Call.spi_read buf len] })

/-- Call of `_delay_us(us)`. -/
def call_delay_us (E : Env σ) (us : Nat) (s : State σ) : State σ :=
  { s with world := E._delay_us us s.world,
           trace := s.trace ++ [Call._delay_us us] }

/-- Call of `icm20948_init(a1, a2, a3)`. -/
def call_icm20948_init (E : Env σ) (a1 a2 a3 : Callback) (s : State σ) : Int × State σ :=
  ((E.icm20948_init a1 a2 a3 s.world).1,
   { s with world := (E.icm20948_init a1 a2 a3 s.world).2,
            trace := s.trace ++ [Call.icm20948_init a1 a2 a3] })

/-- Call of `icm20948_applySettings(&settings)`. -/
def call_icm20948_applySettings (E : Env σ) (settings : icm20948_settings_t)
    (s : State σ) : Int × State σ :=
  ((E.icm20948_applySettings settings s.world).1,
   { s with world := (E.icm20948_applySettings settings s.world).2,
            trace := s.trace ++ [Call.icm20948_applySettings settings] })

/-- Call of `icm20948_getGyroData(&gyro_data)`. -/
def call_icm20948_getGyroData (E : Env σ) (s : State σ) : Int × State σ :=
  ((E.icm20948_getGyroData s.gyro_data s.world).1,
   { s with world := (E.icm20948_getGyroData s.gyro_data s.world).2.2,
            gyro_data := (E.icm20948_getGyroData s.gyro_data s.world).2.1,
            trace := s.trace ++ [Call.icm20948_getGyroData] })

/-- Call of `icm20948_getAccelData(&accel_data)`. -/
def call_icm20948_getAccelData (E : Env σ) (s : State σ) : Int × State σ :=
  ((E.icm20948_getAccelData s.accel_data s.world).1,
   { s with world := (E.icm20948_getAccelData s.accel_data s.world).2.2,
            accel_data := (E.icm20948_getAccelData s.accel_data s.world).2.1,
            trace := s.trace ++ [Call.icm20948_getAccelData] })

/-! ## The functions of `telemetry.c` -/

/-- The function `usr_write(addr, data, len)`.  `data` is `none` for `NULL`,
otherwise the bytes pointed to. -/
def usr_write (E : Env σ) (addr : Nat) (data : Option (List Nat)) (len : Nat)
    (s : State σ) : Int × State σ :=
  match data with
  | none => (toInt8 E.ICM20948_RET_NULL_PTR, s)
  | some buf =>
    let s1 := call_spi_assertCS E E.SPI_ICM20948_CS_PORT E.SPI_ICM20948_CS_PIN 0 s
    let s2 := call_spi_write E [addr] 0x01 s1
    let s3 := call_spi_write E buf len s2
    let s4 := call_spi_assertCS E E.SPI_ICM20948_CS_PORT E.SPI_ICM20948_CS_PIN 1 s3
    (toInt8 ICM20948_RET_OK, s4)

/-- The function `usr_read(addr, data, len)`.  `data` is `none` for `NULL`,
otherwise the bytes pointed to; the second component of the result is the
buffer after the call. -/
def usr_read (E : Env σ) (addr : Nat) (data : Option (List Nat)) (len : Nat)
    (s : State σ) : Int × Option (List Nat) × State σ :=
  match data with
  | none => (toInt8 E.ICM20948_RET_NULL_PTR, none, s)
  | some buf =>
    let s1 := call_spi_assertCS E E.SPI_ICM20948_CS_PORT E.SPI_ICM20948_CS_PIN 0 s
    let s2 := call_spi_write E [addr] 0x01 s1
    let r := call_spi_read E buf len s2
    let s4 := call_spi_assertCS E E.SPI_ICM20948_CS_PORT E.SPI_ICM20948_CS_PIN 1 r.2
    (toInt8 ICM20948_RET_OK, some r.1, s4)

/-- The function `usr_delay_us(period)`: `while (period > 0) { _delay_us(1); period--; }`. -/
def usr_delay_us (E : Env σ) : Nat → State σ → State σ
  | 0, s => s
  | period + 1, s => usr_delay_us E period (call_delay_us E 1 s)

/-- The function `telemetry_init()`.  The initial `ret = ICM20948_RET_OK` is
overwritten by the registration call before it is read; `return ret` converts
the driver status to the `int8_t` return type. -/
def telemetry_init (E : Env σ) (s : State σ) : Int × State σ :=
  let r1 := call_icm20948_init E Callback.usr_read Callback.usr_write Callback.usr_delay_us s
  if r1.1 = ICM20948_RET_OK then
    let settings : icm20948_settings_t :=
      { gyro_en := ICM20948_GYRO_ENABLE, accel_en := ICM20948_ACCEL_ENABLE }
    let r2 := call_icm20948_applySettings E settings r1.2
    (toInt8 r2.1, r2.2)
  else
    (toInt8 r1.1, r1.2)

/-- The function `telemetry_getData()`: `ret` starts at `ICM20948_RET_OK` and
each fetch's status is OR-ed into it.  `Int.lor` is the two's-complement OR of
integers, whatever the width the C operands are promoted to; `return ret`
converts to the `int8_t` return type. -/
def telemetry_getData (E : Env σ) (s : State σ) : Int × State σ :=
  let ret0 : Int := ICM20948_RET_OK
  let g := call_icm20948_getGyroData E s
  let ret1 := Int.lor ret0 g.1
  let a := call_icm20948_getAccelData E g.2
  let ret2 := Int.lor ret1 a.1
  (toInt8 ret2, a.2)

/-! ## Property used by the frame claim, and a test double -/

/-- A fetch that does not return `ICM20948_RET_OK` leaves the buffer it was
handed as it found it. -/
def FetchWritesOnlyOnOk (E : Env σ) : Prop :=
  (∀ buf w, (E.icm20948_getGyroData buf w).1 ≠ ICM20948_RET_OK →
      (E.icm20948_getGyroData buf w).2.1 = buf) ∧
  (∀ buf w, (E.icm20948_getAccelData buf w).1 ≠ ICM20948_RET_OK →
      (E.icm20948_getAccelData buf w).2.1 = buf)

/-- A test double of the collaborators.  The outside world is a counter of the
calls received; the driver answers with the fixed statuses `r` (registration),
`s` (settings), `g` (gyro fetch), `a` (accel fetch), and a fetch stores its
sample (`G`, `A`) only when its status is `ICM20948_RET_OK`. -/
def stubEnv (r s g a : Int) (G : icm20948_gyro_t) (A : icm20948_accel_t) : Env Nat where
  SPI_ICM20948_CS_PORT := 5
  SPI_ICM20948_CS_PIN := 2
  ICM20948_RET_NULL_PTR := -3
  spi_assertCS := fun _ _ _ w => w + 1
  spi_write := fun _ _ w => w + 1
  spi_read := fun _ len w => (List.replicate len 0xA5, w + 1)
  _delay_us := fun _ w => w + 1
  icm20948_init := fun _ _ _ w => (r, w + 1)
  icm20948_applySettings := fun _ w => (s, w + 1)
  icm20948_getGyroData := fun buf w => (g, if g = ICM20948_RET_OK then G else buf, w + 1)
  icm20948_getAccelData := fun buf w => (a, if a = ICM20948_RET_OK then A else buf, w + 1)

/-- A start state: zeroed globals, no call made yet. -/
def state0 : State Nat :=
  { world := 0, gyro_data := ⟨0, 0, 0⟩, accel_data := ⟨0, 0, 0⟩, trace := [] }

/-- A gyro sample for the test double. -/
def sampleG : icm20948_gyro_t := ⟨11, -12, 13⟩

/-- An accel sample for the test double. -/
def sampleA : icm20948_accel_t := ⟨-21, 22, 23⟩

/-! ## Lemmas on machine integers -/

theorem toInt8_of_isInt8 {x : Int} (h : isInt8 x) : toInt8 x = x := by
  unfold isInt8 at h
  unfold toInt8
  omega

theorem nat_or_eq_zero (m n : Nat) : m ||| n = 0 ↔ m = 0 ∧ n = 0 := by
  constructor
  · intro h
    have hb : ∀ i, m.testBit i = false ∧ n.testBit i = false := by
      intro i
      have := Nat.testBit_or m n i
      rw [h, Nat.zero_testBit] at this
      simpa [Bool.or_eq_false_iff] using this.symm
    exact ⟨Nat.eq_of_testBit_eq (fun i => by simp [(hb i).1]),
           Nat.eq_of_testBit_eq (fun i => by simp [(hb i).2])⟩
  · rintro ⟨rfl, rfl⟩
    rfl

theorem nat_ldiff_zero (n : Nat) : Nat.ldiff n 0 = n :=
  Nat.eq_of_testBit_eq (fun i => by simp [Nat.testBit_ldiff])

theorem int_zero_lor (x : Int) : Int.lor 0 x = x := by
  cases x with
  | ofNat n => show ((0 ||| n : Nat) : Int) = (n : Int); rw [Nat.zero_or]
  | negSucc n => show Int.negSucc (Nat.ldiff n 0) = Int.negSucc n; rw [nat_ldiff_zero]

theorem int_lor_eq_zero (g a : Int) : Int.lor g a = 0 ↔ g = 0 ∧ a = 0 := by
  cases g with
  | ofNat m =>
    cases a with
    | ofNat n =>
      show ((m ||| n : Nat) : Int) = 0 ↔ (m : Int) = 0 ∧ (n : Int) = 0
      rw [Int.natCast_eq_zero, Int.natCast_eq_zero, Int.natCast_eq_zero]
      exact nat_or_eq_zero m n
    | negSucc n =>
      show Int.negSucc (Nat.ldiff n m) = 0 ↔ _ ∧ Int.negSucc n = 0
      constructor
      · intro h; exact absurd h (by simp)
      · intro h; exact absurd h.2 (by simp)
  | negSucc m =>
    cases a with
    | ofNat n =>
      show Int.negSucc (Nat.ldiff m n) = 0 ↔ Int.negSucc m = 0 ∧ _
      constructor
      · intro h; exact absurd h (by simp)
      · intro h; exact absurd h.1 (by simp)
    | negSucc n =>
      show Int.negSucc (m &&& n) = 0 ↔ Int.negSucc m = 0 ∧ _
      constructor
      · intro h; exact absurd h (by simp)
      · intro h; exact absurd h.1 (by simp)

theorem isInt8_lor {g a : Int} (hg : isInt8 g) (ha : isInt8 a) : isInt8 (Int.lor g a) := by
  unfold isInt8 at *
  cases g with
  | ofNat m =>
    have hm : m < 2 ^ 7 := by have := hg.2; simp at this; omega
    cases a with
    | ofNat n =>
      have hn : n < 2 ^ 7 := by have := ha.2; simp at this; omega
      have h := Nat.or_lt_two_pow hm hn
      show -128 ≤ ((m ||| n : Nat) : Int) ∧ ((m ||| n : Nat) : Int) ≤ 127
      omega
    | negSucc n =>
      have hn : n < 2 ^ 7 := by have := ha.1; rw [Int.negSucc_eq] at this; omega
      have h : Nat.ldiff n m < 2 ^ 7 := Nat.bitwise_lt_two_pow hn hm
      show -128 ≤ Int.negSucc (Nat.ldiff n m) ∧ Int.negSucc (Nat.ldiff n m) ≤ 127
      rw [Int.negSucc_eq]
      omega
  | negSucc m =>
    have hm : m < 2 ^ 7 := by have := hg.1; rw [Int.negSucc_eq] at this; omega
    cases a with
    | ofNat n =>
      have hn : n < 2 ^ 7 := by have := ha.2; simp at this; omega
      have h : Nat.ldiff m n < 2 ^ 7 := Nat.bitwise_lt_two_pow hm hn
      show -128 ≤ Int.negSucc (Nat.ldiff m n) ∧ Int.negSucc (Nat.ldiff m n) ≤ 127
      rw [Int.negSucc_eq]
      omega
    | negSucc n =>
      have hn : n < 2 ^ 7 := by have := ha.1; rw [Int.negSucc_eq] at this; omega
      have h : m &&& n < 2 ^ 7 := Nat.and_lt_two_pow m hn
      show -128 ≤ Int.negSucc (m &&& n) ∧ Int.negSucc (m &&& n) ≤ 127
      rw [Int.negSucc_eq]
      omega

/-- The status computed by `telemetry_getData`, in terms of the two fetches. -/
theorem telemetry_getData_fst (E : Env σ) (st : State σ) :
    (telemetry_getData E st).1 =
      toInt8 (Int.lor (E.icm20948_getGyroData st.gyro_data st.world).1
        (E.icm20948_getAccelData st.accel_data
          (E.icm20948_getGyroData st.gyro_data st.world).2.2).1) := by
  simp [telemetry_getData, call_icm20948_getGyroData, call_icm20948_getAccelData,
    ICM20948_RET_OK, int_zero_lor]

/-! ## `telemetry_init` -/

/-- C1: when the registration step returns `r` and the settings step (at the
state registration leaves) returns `s`, both 8-bit signed status codes,
`telemetry_init` returns `ICM20948_RET_OK` (0) if and only if `r` is OK and
`s` is OK. -/
theorem telemetry_init_ok_iff (E : Env σ) (st : State σ) (r s : Int) (w1 w2 : σ)
    (hr : E.icm20948_init Callback.usr_read Callback.usr_write Callback.usr_delay_us
            st.world = (r, w1))
    (hs : E.icm20948_applySettings
            { gyro_en := ICM20948_GYRO_ENABLE, accel_en := ICM20948_ACCEL_ENABLE } w1 = (s, w2))
    (hr8 : isInt8 r) (hs8 : isInt8 s) :
    (telemetry_init E st).1 = ICM20948_RET_OK ↔
      r = ICM20948_RET_OK ∧ s = ICM20948_RET_OK := by
  by_cases h0 : r = ICM20948_RET_OK
  · simp [telemetry_init, call_icm20948_init, call_icm20948_applySettings, hr, hs, h0,
      toInt8_of_isInt8 hs8]
  · simp [telemetry_init, call_icm20948_init, hr, h0, toInt8_of_isInt8 hr8]

/-- Witness of C1: registration OK and settings failing with -3. -/
theorem telemetry_init_ok_iff_witness :
    isInt8 0 ∧ isInt8 (-3) ∧
    ((telemetry_init (stubEnv 0 (-3) 0 0 sampleG sampleA) state0).1 = ICM20948_RET_OK ↔
      (0 : Int) = ICM20948_RET_OK ∧ (-3 : Int) = ICM20948_RET_OK) :=
  ⟨by decide, by decide,
   telemetry_init_ok_iff (stubEnv 0 (-3) 0 0 sampleG sampleA) state0 0 (-3) 1 2 rfl rfl
     (by decide) (by decide)⟩

/-- C2: when the registration step returns a non-OK 8-bit signed status `r`,
`telemetry_init` returns exactly `r`, and the only call it makes is the
registration call: every settings-apply call in the trace afterwards was
already there before, and the outside world is left as registration left
it. -/
theorem telemetry_init_registration_failure (E : Env σ) (st : State σ) (r : Int) (w1 : σ)
    (hr : E.icm20948_init Callback.usr_read Callback.usr_write Callback.usr_delay_us
            st.world = (r, w1))
    (hne : r ≠ ICM20948_RET_OK) (hr8 : isInt8 r) :
    (telemetry_init E st).1 = r ∧
    (telemetry_init E st).2.trace = st.trace ++
      [Call.icm20948_init Callback.usr_read Callback.usr_write Callback.usr_delay_us] ∧
    (∀ x, Call.icm20948_applySettings x ∈ (telemetry_init E st).2.trace →
      Call.icm20948_applySettings x ∈ st.trace) ∧
    (telemetry_init E st).2.world = w1 := by
  simp [telemetry_init, call_icm20948_init, hr, hne, toInt8_of_isInt8 hr8]

/-- Witness of C2: registration failing with -1. -/
theorem telemetry_init_registration_failure_witness :
    (-1 : Int) ≠ ICM20948_RET_OK ∧ isInt8 (-1) ∧
    (telemetry_init (stubEnv (-1) 0 0 0 sampleG sampleA) state0).1 = -1 ∧
    (telemetry_init (stubEnv (-1) 0 0 0 sampleG sampleA) state0).2.trace = state0.trace ++
      [Call.icm20948_init Callback.usr_read Callback.usr_write Callback.usr_delay_us] ∧
    (∀ x, Call.icm20948_applySettings x ∈
        (telemetry_init (stubEnv (-1) 0 0 0 sampleG sampleA) state0).2.trace →
      Call.icm20948_applySettings x ∈ state0.trace) ∧
    (telemetry_init (stubEnv (-1) 0 0 0 sampleG sampleA) state0).2.world = 1 :=
  ⟨by decide, by decide,
   telemetry_init_registration_failure (stubEnv (-1) 0 0 0 sampleG sampleA) state0 (-1) 1 rfl
     (by decide) (by decide)⟩

/-- C8: when the registration step returns OK, `telemetry_init` makes, after
the registration call, exactly one settings-apply call, whose settings have
`gyro_en` and `accel_en` both enabled, and returns the 8-bit signed status `s`
of that call unchanged. -/
theorem telemetry_init_applies_settings (E : Env σ) (st : State σ) (s : Int) (w1 w2 : σ)
    (hr : E.icm20948_init Callback.usr_read Callback.usr_write Callback.usr_delay_us
            st.world = (ICM20948_RET_OK, w1))
    (hs : E.icm20948_applySettings { gyro_en := true, accel_en := true } w1 = (s, w2))
    (hs8 : isInt8 s) :
    (telemetry_init E st).2.trace = st.trace ++
      [Call.icm20948_init Callback.usr_read Callback.usr_write Callback.usr_delay_us,
       Call.icm20948_applySettings { gyro_en := true, accel_en := true }] ∧
    (telemetry_init E st).1 = s ∧
    (telemetry_init E st).2.world = w2 := by
  simp [telemetry_init, call_icm20948_init, call_icm20948_applySettings, hr, hs,
    ICM20948_GYRO_ENABLE, ICM20948_ACCEL_ENABLE, toInt8_of_isInt8 hs8]

/-- Witness of C8: registration OK, settings step answering -4. -/
theorem telemetry_init_applies_settings_witness :
    isInt8 (-4) ∧
    (telemetry_init (stubEnv 0 (-4) 0 0 sampleG sampleA) state0).2.trace = state0.trace ++
      [Call.icm20948_init Callback.usr_read Callback.usr_write Callback.usr_delay_us,
       Call.icm20948_applySettings { gyro_en := true, accel_en := true }] ∧
    (telemetry_init (stubEnv 0 (-4) 0 0 sampleG sampleA) state0).1 = -4 ∧
    (telemetry_init (stubEnv 0 (-4) 0 0 sampleG sampleA) state0).2.world = 2 :=
  ⟨by decide,
   telemetry_init_applies_settings (stubEnv 0 (-4) 0 0 sampleG sampleA) state0 (-4) 1 2 rfl rfl
     (by decide)⟩

/-- C9 as stated fails: on the test double, the first call `telemetry_init`
makes is `icm20948_init(usr_read, usr_write, usr_delay_us)`, which is not
`icm20948_init(usr_write, usr_read, usr_delay_us)`. -/
theorem telemetry_init_write_first_counterexample :
    (telemetry_init (stubEnv 0 0 0 0 sampleG sampleA) state0).2.trace.head? =
      some (Call.icm20948_init Callback.usr_read Callback.usr_write Callback.usr_delay_us) ∧
    (telemetry_init (stubEnv 0 0 0 0 sampleG sampleA) state0).2.trace.head? ≠
      some (Call.icm20948_init Callback.usr_write Callback.usr_read Callback.usr_delay_us) := by
  decide

/-- C9 amended: the first call `telemetry_init` makes is the driver's init with
the callbacks in the order (read, write, delay): `usr_read` first, `usr_write`
second, `usr_delay_us` third. -/
theorem telemetry_init_callback_order (E : Env σ) (st : State σ) :
    ∃ rest, (telemetry_init E st).2.trace = st.trace ++
      Call.icm20948_init Callback.usr_read Callback.usr_write Callback.usr_delay_us :: rest := by
  by_cases h0 : (E.icm20948_init Callback.usr_read Callback.usr_write Callback.usr_delay_us
      st.world).1 = ICM20948_RET_OK
  · exact ⟨[Call.icm20948_applySettings
        { gyro_en := ICM20948_GYRO_ENABLE, accel_en := ICM20948_ACCEL_ENABLE }], by
      simp [telemetry_init, call_icm20948_init, call_icm20948_applySettings, h0]⟩
  · exact ⟨[], by simp [telemetry_init, call_icm20948_init, h0]⟩

/-! ## `telemetry_getData` -/

/-- C3: when the gyro fetch returns `g` and the accel fetch returns `a`, both
8-bit signed, `telemetry_getData` returns the bitwise OR of `g` and `a`; the
returned status is zero exactly when both are zero, and non-zero whenever
either is non-zero. -/
theorem telemetry_getData_status_or (E : Env σ) (st : State σ) (g a : Int)
    (G : icm20948_gyro_t) (A : icm20948_accel_t) (w1 w2 : σ)
    (hg : E.icm20948_getGyroData st.gyro_data st.world = (g, G, w1))
    (ha : E.icm20948_getAccelData st.accel_data w1 = (a, A, w2))
    (hg8 : isInt8 g) (ha8 : isInt8 a) :
    (telemetry_getData E st).1 = Int.lor g a ∧
    ((telemetry_getData E st).1 = 0 ↔ g = 0 ∧ a = 0) ∧
    (g ≠ 0 ∨ a ≠ 0 → (telemetry_getData E st).1 ≠ 0) := by
  have h1 : (telemetry_getData E st).1 = Int.lor g a := by
    rw [telemetry_getData_fst, hg, ha]
    exact toInt8_of_isInt8 (isInt8_lor hg8 ha8)
  refine ⟨h1, ?_, ?_⟩
  · rw [h1]
    exact int_lor_eq_zero g a
  · intro h hz
    rw [h1, int_lor_eq_zero] at hz
    rcases h with h | h
    · exact h hz.1
    · exact h hz.2

/-- Witness of C3: `g = 1`, `a = 0` gives the status `1`. -/
theorem telemetry_getData_status_or_witness :
    isInt8 1 ∧ isInt8 0 ∧ Int.lor 1 0 = 1 ∧
    ((telemetry_getData (stubEnv 0 0 1 0 sampleG sampleA) state0).1 = Int.lor 1 0 ∧
     ((telemetry_getData (stubEnv 0 0 1 0 sampleG sampleA) state0).1 = 0 ↔
        (1 : Int) = 0 ∧ (0 : Int) = 0) ∧
     ((1 : Int) ≠ 0 ∨ (0 : Int) ≠ 0 →
        (telemetry_getData (stubEnv 0 0 1 0 sampleG sampleA) state0).1 ≠ 0)) :=
  ⟨by decide, by decide, by decide,
   telemetry_getData_status_or (stubEnv 0 0 1 0 sampleG sampleA) state0 1 0
     state0.gyro_data sampleA 1 2 rfl rfl (by decide) (by decide)⟩

/-- C4: from any prior state, when on this call the gyro fetch succeeds and
supplies `G` and the accel fetch succeeds and supplies `A`, then after
`telemetry_getData` the global `gyro_data` is `G`, the global `accel_data` is
`A`, and the returned status is OK. -/
theorem telemetry_getData_success_stores (E : Env σ) (st : State σ)
    (G : icm20948_gyro_t) (A : icm20948_accel_t) (w1 w2 : σ)
    (hg : E.icm20948_getGyroData st.gyro_data st.world = (ICM20948_RET_OK, G, w1))
    (ha : E.icm20948_getAccelData st.accel_data w1 = (ICM20948_RET_OK, A, w2)) :
    (telemetry_getData E st).2.gyro_data = G ∧
    (telemetry_getData E st).2.accel_data = A ∧
    (telemetry_getData E st).1 = ICM20948_RET_OK := by
  refine ⟨?_, ?_, ?_⟩
  · simp [telemetry_getData, call_icm20948_getGyroData, call_icm20948_getAccelData, hg]
  · simp [telemetry_getData, call_icm20948_getGyroData, call_icm20948_getAccelData, hg, ha]
  · rw [telemetry_getData_fst, hg, ha]
    show toInt8 (Int.lor 0 0) = 0
    decide

/-- Witness of C4: both fetches succeed on the test double. -/
theorem telemetry_getData_success_stores_witness :
    (telemetry_getData (stubEnv 0 0 0 0 sampleG sampleA) state0).2.gyro_data = sampleG ∧
    (telemetry_getData (stubEnv 0 0 0 0 sampleG sampleA) state0).2.accel_data = sampleA ∧
    (telemetry_getData (stubEnv 0 0 0 0 sampleG sampleA) state0).1 = ICM20948_RET_OK :=
  telemetry_getData_success_stores (stubEnv 0 0 0 0 sampleG sampleA) state0
    sampleG sampleA 1 2 rfl rfl

/-- C5: for a driver whose fetches write their buffer only when they return
OK, from any prior state, both fetches of `telemetry_getData` are performed
(gyro, then accel), and when exactly one of them fails the failing fetch's
global keeps its prior value while the other global holds the driver-supplied
sample: gyro failing and accel succeeding leaves `gyro_data` as it was and
stores `A`; gyro succeeding and accel failing stores `G` and leaves
`accel_data` as it was. -/
theorem telemetry_getData_one_fetch_fails (E : Env σ) (st : State σ) (g a : Int)
    (G : icm20948_gyro_t) (A : icm20948_accel_t) (w1 w2 : σ)
    (hE : FetchWritesOnlyOnOk E)
    (hg : E.icm20948_getGyroData st.gyro_data st.world = (g, G, w1))
    (ha : E.icm20948_getAccelData st.accel_data w1 = (a, A, w2)) :
    (telemetry_getData E st).2.trace = st.trace ++
      [Call.icm20948_getGyroData, Call.icm20948_getAccelData] ∧
    (g ≠ ICM20948_RET_OK ∧ a = ICM20948_RET_OK →
      (telemetry_getData E st).2.gyro_data = st.gyro_data ∧
      (telemetry_getData E st).2.accel_data = A) ∧
    (g = ICM20948_RET_OK ∧ a ≠ ICM20948_RET_OK →
      (telemetry_getData E st).2.gyro_data = G ∧
      (telemetry_getData E st).2.accel_data = st.accel_data) := by
  have hgy : (telemetry_getData E st).2.gyro_data = G := by
    simp [telemetry_getData, call_icm20948_getGyroData, call_icm20948_getAccelData, hg]
  have hac : (telemetry_getData E st).2.accel_data = A := by
    simp [telemetry_getData, call_icm20948_getGyroData, call_icm20948_getAccelData, hg, ha]
  refine ⟨?_, ?_, ?_⟩
  · simp [telemetry_getData, call_icm20948_getGyroData, call_icm20948_getAccelData]
  · intro hcase
    have hkeep := hE.1 st.gyro_data st.world
    rw [hg] at hkeep
    exact ⟨hgy.trans (hkeep hcase.1), hac⟩
  · intro hcase
    have hkeep := hE.2 st.accel_data w1
    rw [ha] at hkeep
    exact ⟨hgy, hac.trans (hkeep hcase.2)⟩

/-- Witness of C5: the gyro fetch fails with 1, the accel fetch succeeds. -/
theorem telemetry_getData_one_fetch_fails_witness :
    FetchWritesOnlyOnOk (stubEnv 0 0 1 0 sampleG sampleA) ∧
    ((1 : Int) ≠ ICM20948_RET_OK ∧ (0 : Int) = ICM20948_RET_OK) ∧
    ((telemetry_getData (stubEnv 0 0 1 0 sampleG sampleA) state0).2.trace = state0.trace ++
       [Call.icm20948_getGyroData, Call.icm20948_getAccelData] ∧
     ((1 : Int) ≠ ICM20948_RET_OK ∧ (0 : Int) = ICM20948_RET_OK →
       (telemetry_getData (stubEnv 0 0 1 0 sampleG sampleA) state0).2.gyro_data
         = state0.gyro_data ∧
       (telemetry_getData (stubEnv 0 0 1 0 sampleG sampleA) state0).2.accel_data = sampleA) ∧
     ((1 : Int) = ICM20948_RET_OK ∧ (0 : Int) ≠ ICM20948_RET_OK →
       (telemetry_getData (stubEnv 0 0 1 0 sampleG sampleA) state0).2.gyro_data
         = state0.gyro_data ∧
       (telemetry_getData (stubEnv 0 0 1 0 sampleG sampleA) state0).2.accel_data
         = state0.accel_data)) :=
  ⟨⟨fun buf w h => by simp [stubEnv, ICM20948_RET_OK],
    fun buf w h => by simp [stubEnv, ICM20948_RET_OK] at h⟩,
   ⟨by decide, by decide⟩,
   telemetry_getData_one_fetch_fails (stubEnv 0 0 1 0 sampleG sampleA) state0 1 0
     state0.gyro_data sampleA 1 2
     ⟨fun buf w h => by simp [stubEnv, ICM20948_RET_OK],
      fun buf w h => by simp [stubEnv, ICM20948_RET_OK] at h⟩
     rfl rfl⟩

/-! ## The callbacks -/

/-- C6: for every address, every non-null buffer and every length, whatever
the transport functions do, `usr_write` makes exactly the calls chip-select
level 0, `spi_write` of the address with length 1, `spi_write` of the buffer
with length `len`, chip-select level 1, in this order, and returns OK; and
`usr_read` makes the same calls with `spi_read` of the buffer with length
`len` in third place, and returns OK. -/
theorem usr_write_usr_read_transaction (E : Env σ) (st : State σ) (addr : Nat)
    (buf : List Nat) (len : Nat) :
    ((usr_write E addr (some buf) len st).2.trace = st.trace ++
        [Call.spi_assertCS E.SPI_ICM20948_CS_PORT E.SPI_ICM20948_CS_PIN 0,
         Call.spi_write [addr] 1,
         Call.spi_write buf len,
         Call.spi_assertCS E.SPI_ICM20948_CS_PORT E.SPI_ICM20948_CS_PIN 1] ∧
     (usr_write E addr (some buf) len st).1 = ICM20948_RET_OK) ∧
    ((usr_read E addr (some buf) len st).2.2.trace = st.trace ++
        [Call.spi_assertCS E.SPI_ICM20948_CS_PORT E.SPI_ICM20948_CS_PIN 0,
         Call.spi_write [addr] 1,
         Call.spi_read buf len,
         Call.spi_assertCS E.SPI_ICM20948_CS_PORT E.SPI_ICM20948_CS_PIN 1] ∧
     (usr_read E addr (some buf) len st).1 = ICM20948_RET_OK) := by
  have hok : toInt8 ICM20948_RET_OK = ICM20948_RET_OK := by decide
  refine ⟨⟨?_, ?_⟩, ?_, ?_⟩
  · simp [usr_write, call_spi_assertCS, call_spi_write]
  · simp [usr_write, hok]
  · simp [usr_read, call_spi_assertCS, call_spi_write, call_spi_read]
  · simp [usr_read, hok]

/-- C7: for every address and length, `usr_write` and `usr_read` called with a
null buffer return `ICM20948_RET_NULL_PTR` (an 8-bit signed code) and make no
call at all: the state, its trace included, is returned as it was. -/
theorem usr_write_usr_read_null (E : Env σ) (st : State σ) (addr len : Nat)
    (hnp : isInt8 E.ICM20948_RET_NULL_PTR) :
    ((usr_write E addr none len st).1 = E.ICM20948_RET_NULL_PTR ∧
     (usr_write E addr none len st).2.trace = st.trace ∧
     (usr_write E addr none len st).2 = st) ∧
    ((usr_read E addr none len st).1 = E.ICM20948_RET_NULL_PTR ∧
     (usr_read E addr none len st).2.2.trace = st.trace ∧
     (usr_read E addr none len st).2.2 = st) := by
  simp [usr_write, usr_read, toInt8_of_isInt8 hnp]

/-- Witness of C7: the test double, whose `ICM20948_RET_NULL_PTR` is -3. -/
theorem usr_write_usr_read_null_witness :
    isInt8 (stubEnv 0 0 0 0 sampleG sampleA).ICM20948_RET_NULL_PTR ∧
    ((usr_write (stubEnv 0 0 0 0 sampleG sampleA) 0x06 none 4 state0).1 = -3 ∧
     (usr_write (stubEnv 0 0 0 0 sampleG sampleA) 0x06 none 4 state0).2.trace = [] ∧
     (usr_write (stubEnv 0 0 0 0 sampleG sampleA) 0x06 none 4 state0).2 = state0) ∧
    ((usr_read (stubEnv 0 0 0 0 sampleG sampleA) 0x06 none 4 state0).1 = -3 ∧
     (usr_read (stubEnv 0 0 0 0 sampleG sampleA) 0x06 none 4 state0).2.2.trace = [] ∧
     (usr_read (stubEnv 0 0 0 0 sampleG sampleA) 0x06 none 4 state0).2.2 = state0) :=
  ⟨by decide,
   usr_write_usr_read_null (stubEnv 0 0 0 0 sampleG sampleA) state0 0x06 4 (by decide)⟩

/-- C10: for every duration `n` (every 32-bit unsigned value, 0 included, is
one), `usr_delay_us` returns, having made exactly `n` calls `_delay_us(1)` and
no other call, the globals untouched and the outside world advanced by `n`
ticks. -/
theorem usr_delay_us_ticks (E : Env σ) (n : Nat) (st : State σ) :
    (usr_delay_us E n st).trace = st.trace ++ List.replicate n (Call._delay_us 1) ∧
    (usr_delay_us E n st).gyro_data = st.gyro_data ∧
    (usr_delay_us E n st).accel_data = st.accel_data ∧
    (usr_delay_us E n st).world = (E._delay_us 1)^[n] st.world := by
  induction n generalizing st with
  | zero => simp [usr_delay_us]
  | succ k ih =>
    obtain ⟨h1, h2, h3, h4⟩ := ih (call_delay_us E 1 st)
    refine ⟨?_, ?_, ?_, ?_⟩
    · rw [usr_delay_us, h1]
      simp [call_delay_us, List.replicate_succ]
    · rw [usr_delay_us, h2]
      rfl
    · rw [usr_delay_us, h3]
      rfl
    · rw [usr_delay_us, h4, Function.iterate_succ_apply]
      rfl

end Telemetry
